import Mathlib

/-!
# Verification of the Aura AI session orchestrator

A shallow embedding of the core of the Aura AI repository:

* `src/hooks/useGeminiLive.ts` — the session orchestrator (connection state
  machine, interim/finalized transcript handling, VAD-driven thinking flag,
  tool-call dispatch, playback source bookkeeping, teardown), and
* the audio codec utilities (`encode`, `createBlob`).

State held in React `useState`/`useRef` cells is modelled as one explicit
state record (`OrchState`); each callback of the hook becomes a pure state
transformer.  JavaScript strings are Lean `String`s, JavaScript numbers that
the claims depend on are modelled as `ℚ` (every float is a rational and the
operations involved — comparison, `Math.max`, addition, multiplication by a
power of two — are exact on the values concerned).
-/

namespace AuraAI

/-- `ConnectionState` from `src/types.ts`. -/
inductive ConnectionState where
  | idle
  | connecting
  | connected
  | error
  | closed
deriving DecidableEq, Repr

/-- `Speaker` from `src/types.ts`. -/
inductive Speaker where
  | user
  | model
deriving DecidableEq, Repr

/-- `Citation` from `src/types.ts`. -/
structure Citation where
  uri : String
  title : String
deriving DecidableEq, Repr

/-- `TranscriptEntry` from `src/types.ts`; the optional `citations` field is
an `Option`. -/
structure TranscriptEntry where
  speaker : Speaker
  text : String
  id : String
  citations : Option (List Citation) := none
deriving DecidableEq, Repr

/-- `InterimTranscript` from `src/types.ts`. -/
structure InterimTranscript where
  user : String
  model : String
deriving DecidableEq, Repr

/-- `ModelExpression` from `src/types.ts`. -/
inductive ModelExpression where
  | neutral
  | positive
  | inquisitive
  | empathetic
  | celebratory
deriving DecidableEq, Repr

/-- `POSITIVE_KEYWORDS` from `src/hooks/useGeminiLive.ts`. -/
def POSITIVE_KEYWORDS : List String :=
  ["great", "wonderful", "awesome", "fantastic", "excellent", "love that", "amazing", "perfect"]

/-- `EMPATHETIC_KEYWORDS` from `src/hooks/useGeminiLive.ts`. -/
def EMPATHETIC_KEYWORDS : List String :=
  ["sad", "tough", "hard", "sorry to hear", "understand", "difficult"]

/-- `CELEBRATORY_KEYWORDS` from `src/hooks/useGeminiLive.ts`. -/
def CELEBRATORY_KEYWORDS : List String :=
  ["congratulations", "hooray", "congrats", "fantastic", "celebrate", "well done"]

/-- `needle` occurs as a contiguous sublist of `haystack`. -/
def charsContain (needle : List Char) : List Char → Bool
  | [] => needle.isEmpty
  | c :: rest => needle.isPrefixOf (c :: rest) || charsContain needle rest

/-- JavaScript `haystack.includes(needle)`: substring test. -/
def jsIncludes (haystack needle : String) : Bool :=
  charsContain needle.toList haystack.toList

/-- JavaScript `s.toLowerCase()` (the inputs concerned are ASCII, where
`Char.toLower` agrees with Unicode lower-casing). -/
def jsToLower (s : String) : String :=
  String.mk (s.toList.map Char.toLower)

/-- JavaScript `s.trim()`: strip whitespace from both ends. -/
def jsTrim (s : String) : String :=
  String.mk (((s.toList.dropWhile Char.isWhitespace).reverse.dropWhile
    Char.isWhitespace).reverse)

/-- JavaScript `s.endsWith(t)` for a one-character `t`. -/
def jsEndsWithChar (s : String) (c : Char) : Bool :=
  s.toList.getLast? == some c

/-- The body of `analyzeAndSetExpression` (useGeminiLive.ts:231-244) as a pure
function: the expression the handler stores for the given accumulated text. -/
def analyzeExpression (text : String) : ModelExpression :=
  let lowerCaseText := jsToLower text
  if CELEBRATORY_KEYWORDS.any (fun kw => jsIncludes lowerCaseText kw) then
    .celebratory
  else if POSITIVE_KEYWORDS.any (fun kw => jsIncludes lowerCaseText kw) then
    .positive
  else if EMPATHETIC_KEYWORDS.any (fun kw => jsIncludes lowerCaseText kw) then
    .empathetic
  else if jsEndsWithChar (jsTrim lowerCaseText) '?' then
    .inquisitive
  else
    .neutral

/-- The spec side of the classifier claim, written from the spec words: a
priority-ordered rule list, first match wins, `neutral` as fallback. -/
def firstMatch : List (ModelExpression × Bool) → ModelExpression
  | [] => .neutral
  | (e, b) :: rest => if b then e else firstMatch rest

/-- Classifier as the spec describes it: celebratory keywords > positive
keywords > empathetic keywords > trailing question mark > neutral,
case-insensitive substring matching. -/
def classifySpec (text : String) : ModelExpression :=
  let lowerCaseText := jsToLower text
  firstMatch
    [ (.celebratory, CELEBRATORY_KEYWORDS.any (fun kw => jsIncludes lowerCaseText kw)),
      (.positive, POSITIVE_KEYWORDS.any (fun kw => jsIncludes lowerCaseText kw)),
      (.empathetic, EMPATHETIC_KEYWORDS.any (fun kw => jsIncludes lowerCaseText kw)),
      (.inquisitive, jsEndsWithChar (jsTrim lowerCaseText) '?') ]

/-! ## Audio codec utilities (`src/utils/audioUtils.ts`) -/

/-- Truncation of a rational toward zero (the rounding JavaScript applies when
a number is stored into an `Int16Array`). -/
def ratTrunc (q : ℚ) : ℤ :=
  if 0 ≤ q then ⌊q⌋ else ⌈q⌉

/-- Wrap an integer into a signed 16-bit value, modulo `2 ^ 16` — the
storage semantics of `Int16Array` (no clamping). -/
def toInt16Wrap (n : ℤ) : ℤ :=
  let r := n % 65536
  if r < 32768 then r else r - 65536

/-- `int16[i] = data[i] * 32768` from `createBlob`: multiplication by
`2 ^ 15` (exact on binary floats), truncation toward zero, wrap-around into a
signed 16-bit integer. -/
def jsToInt16 (x : ℚ) : ℤ :=
  toInt16Wrap (ratTrunc (x * 32768))

/-- The `Uint8Array` view of one stored 16-bit sample: two bytes,
little-endian two\x27s complement. -/
def int16LEBytes (n : ℤ) : List ℕ :=
  [((n % 65536) % 256).toNat, ((n % 65536) / 256).toNat]

/-- The base64 alphabet used by `btoa`. -/
def base64Chars : List Char :=
  "ABCDEFGHIJKLMNOPQRSTUVWXYZabcdefghijklmnopqrstuvwxyz0123456789+/".toList

/-- One base64 digit. -/
def base64Digit (i : ℕ) : Char :=
  base64Chars.getD i 'A'

/-- Base64 encoding of a byte list, three bytes per group, `=`-padded — the
behaviour of `encode` (audioUtils.ts:165-172), which builds a binary string
from the bytes and applies `btoa`. -/
def base64Encode : List ℕ → List Char
  | [] => []
  | [b0] =>
    [base64Digit (b0 / 4), base64Digit (b0 % 4 * 16), '=', '=']
  | [b0, b1] =>
    [base64Digit (b0 / 4), base64Digit (b0 % 4 * 16 + b1 / 16),
     base64Digit (b1 % 16 * 4), '=']
  | b0 :: b1 :: b2 :: rest =>
    base64Digit (b0 / 4) :: base64Digit (b0 % 4 * 16 + b1 / 16) ::
      base64Digit (b1 % 16 * 4 + b2 / 64) :: base64Digit (b2 % 64) ::
      base64Encode rest

/-- `encode` from audioUtils.ts: bytes to a base64 string. -/
def encode (bytes : List ℕ) : String :=
  String.mk (base64Encode bytes)

/-- The object returned by `createBlob` (the `GeminiBlob` interface of
audioUtils.ts). -/
structure GeminiBlob where
  data : String
  mimeType : String
deriving DecidableEq, Repr

/-- The `Int16Array` built inside `createBlob`: every float sample is stored
via `int16[i] = data[i] * 32768`. -/
def createBlobInt16 (data : List ℚ) : List ℤ :=
  data.map jsToInt16

/-- `createBlob` from audioUtils.ts: pack the samples into an `Int16Array`,
view its buffer as bytes, base64-encode, and attach the fixed mime type. -/
def createBlob (data : List ℚ) : GeminiBlob :=
  { data := encode ((createBlobInt16 data).flatMap int16LEBytes),
    mimeType := "audio/pcm;rate=16000" }

/-! ## The session orchestrator (`src/hooks/useGeminiLive.ts`)

The hook's `useState`/`useRef` cells become the fields of `OrchState`; every
callback becomes a pure state transformer.  Props of the hook that the
handlers read (`isCameraOn`, `currentInputMode`) are passed as parameters.
Audio buffer source nodes are identified by ghost ids (`ℕ`); the ghost field
`stoppedSources` records every id on which `stop()` has been called. -/

/-- `ThemeOption` and `THEMES` from `src/types.ts` (a `Theme` is one of the
union of string literals, so it is modelled as a `String`). -/
structure ThemeOption where
  id : String
  name : String
  colors : List String
deriving DecidableEq, Repr

/-- `THEMES` from `src/types.ts`. -/
def THEMES : List ThemeOption :=
  [ ⟨"theme-aura-dark", "Aura Dark", ["#2563eb", "#374151", "#60a5fa"]⟩,
    ⟨"theme-neon-matrix", "Neon Matrix", ["#1a472a", "#0b1d12", "#39ff14"]⟩,
    ⟨"theme-arctic-light", "Arctic Light", ["#0891b2", "#e5e7eb", "#0891b2"]⟩,
    ⟨"theme-solar-flare", "Solar Flare", ["#f97316", "#44403c", "#fcd34d"]⟩,
    ⟨"theme-cosmic-lilac", "Cosmic Lilac", ["#7c3aed", "#4338ca", "#c4b5fd"]⟩,
    ⟨"theme-quantum-glow", "Quantum Glow", ["#00f6ff", "rgba(28, 52, 70, 0.4)", "#82a0b9"]⟩,
    ⟨"theme-crystal-clear", "Crystal Clear", ["#374151", "rgba(255, 255, 255, 0.4)", "#6b7280"]⟩,
    ⟨"theme-midnight-sun", "Midnight Sun", ["#ff4500", "rgba(40, 40, 40, 0.4)", "#a1a1aa"]⟩,
    ⟨"theme-emerald-depth", "Emerald Depth", ["#32cd32", "rgba(4, 38, 20, 0.4)", "#74a88b"]⟩,
    ⟨"theme-supernova", "Supernova", ["#ff00ff", "rgba(76, 52, 148, 0.4)", "#b0a5f0"]⟩,
    ⟨"theme-aetherium-wave", "Aetherium Wave", ["#5eead4", "rgba(49, 46, 129, 0.3)", "#818cf8"]⟩,
    ⟨"theme-neuro-circuit", "Neuro-Circuit", ["#FF0D0D", "#010108", "#006EFF"]⟩ ]

/-- The argument object of a received function call.  Each field the dispatch
code reads is an `Option`: `none` models a missing (JS `undefined`) field. -/
structure FunctionArgs where
  state : Option String := none
  mode : Option String := none
  themeName : Option String := none
  location : Option String := none
  task : Option String := none
  time : Option String := none
deriving DecidableEq, Repr

/-- One function call of a received tool-call batch. -/
structure FunctionCall where
  id : String
  name : String
  args : FunctionArgs
deriving DecidableEq, Repr

/-- One `sendToolResponse` payload: `{id, name, response: {result}}`. -/
structure ToolResponse where
  id : String
  name : String
  result : String
deriving DecidableEq, Repr

/-- The application callbacks the dispatch code can invoke. -/
inductive AppCallback where
  | onToggleCamera
  | onSwitchInputMode
  | onChangeTheme (themeId : String)
  | onNewConversation
deriving DecidableEq, Repr

/-- What processing one function call produces: the tool response sent for
it, the application callbacks invoked, and the confirmation text spoken
(when the call is an app command with a non-empty confirmation). -/
structure CallOutcome where
  response : ToolResponse
  callbacks : List AppCallback
  confirmation : Option String
deriving DecidableEq, Repr

/-- JS string interpolation of a possibly-`undefined` value. -/
def jsTemplate (o : Option String) : String :=
  o.getD "undefined"

/-- The local variables assigned by the `switch (fc.name)` statement of the
tool-call handler (useGeminiLive.ts:426-460): `result`, `isAppCommand`,
`confirmationText`, plus the callbacks the executed case invoked. -/
structure DispatchVars where
  result : String := ""
  isAppCommand : Bool := true
  confirmationText : String := ""
  callbacksRun : List AppCallback := []
deriving DecidableEq, Repr

/-- The `switch (fc.name)` body.  The `changeTheme` case evaluates
`themeName.toLowerCase()` on a possibly-`undefined` `themeName`; when the
argument is missing this throws a `TypeError`, modelled as `Except.error`. -/
def dispatchSwitch (isCameraOn : Bool) (currentInputMode : String)
    (fc : FunctionCall) : Except String DispatchVars :=
  match fc.name with
  | "toggleCamera" =>
    let desiredCameraState := fc.args.state == some "on"
    .ok { confirmationText := "Okay, camera is now " ++ jsTemplate fc.args.state ++ ".",
          callbacksRun :=
            if desiredCameraState ≠ isCameraOn then [.onToggleCamera] else [] }
  | "switchInputMode" =>
    let desiredInputMode := fc.args.mode
    .ok { confirmationText := "Switching to " ++ jsTemplate fc.args.mode ++ " mode.",
          callbacksRun :=
            if desiredInputMode ≠ some currentInputMode then [.onSwitchInputMode] else [] }
  | "changeTheme" =>
    match fc.args.themeName with
    | none => .error "TypeError: undefined has no method toLowerCase"
    | some themeName =>
      match THEMES.find? (fun t => jsToLower t.name == jsToLower themeName) with
      | some theme =>
        .ok { confirmationText := "Theme changed to " ++ themeName ++ ".",
              callbacksRun := [.onChangeTheme theme.id] }
      | none => .ok {}
  | "newConversation" =>
    .ok { confirmationText := "Starting a new conversation.",
          callbacksRun := [.onNewConversation] }
  | "getWeather" =>
    .ok { isAppCommand := false,
          result := "The weather in " ++ jsTemplate fc.args.location ++
            " is sunny and 75 degrees Fahrenheit." }
  | "setReminder" =>
    .ok { isAppCommand := false,
          result := "OK, I\x27ve set a reminder for you to \"" ++
            jsTemplate fc.args.task ++ "\" " ++ jsTemplate fc.args.time ++ "." }
  | _ =>
    .ok { isAppCommand := false,
          result := "Unknown function call: " ++ fc.name }

/-- The loop body of the tool-call handler for one call: run the switch,
speak the confirmation when it is an app command with non-empty text, and
send exactly one `sendToolResponse` carrying the call\x27s id and name, with
result `"ok"` for app commands and the computed `result` otherwise. -/
def handleFunctionCall (isCameraOn : Bool) (currentInputMode : String)
    (fc : FunctionCall) : Except String CallOutcome :=
  match dispatchSwitch isCameraOn currentInputMode fc with
  | .error e => .error e
  | .ok v =>
    .ok { response := ⟨fc.id, fc.name, if v.isAppCommand then "ok" else v.result⟩,
          callbacks := v.callbacksRun,
          confirmation :=
            if v.isAppCommand ∧ v.confirmationText ≠ "" then some v.confirmationText
            else none }

/-- The `for (const fc of message.toolCall.functionCalls)` loop.  A thrown
`TypeError` aborts the loop: the failing call and all later calls produce no
outcome (second component `true` records that the loop threw). -/
def runToolCalls (isCameraOn : Bool) (currentInputMode : String) :
    List FunctionCall → List CallOutcome × Bool
  | [] => ([], false)
  | fc :: rest =>
    match handleFunctionCall isCameraOn currentInputMode fc with
    | .error _ => ([], true)
    | .ok out =>
      let r := runToolCalls isCameraOn currentInputMode rest
      (out :: r.1, r.2)

/-- The tool names the dispatch switch recognises. -/
def knownToolNames : List String :=
  ["toggleCamera", "switchInputMode", "changeTheme", "newConversation",
   "getWeather", "setReminder"]

/-- The orchestrator state: every `useState` and `useRef` cell of
`useGeminiLive` that the verified claims depend on.  Browser objects held in
refs are modelled by their presence (`Bool`, `false` = `null`).  The silence
timer needs two bits because the code sometimes calls `clearTimeout` without
nulling the ref: `silenceTimerRef` is `silenceTimerRef.current !== null`,
`silenceTimerLive` is "a scheduled, not-yet-cleared timeout exists". -/
structure OrchState where
  connectionState : ConnectionState
  transcript : List TranscriptEntry
  interimTranscript : InterimTranscript
  currentInputTranscription : String
  currentOutputTranscription : String
  isModelThinking : Bool
  modelExpression : ModelExpression
  userSpeaking : Bool
  silenceTimerRef : Bool
  silenceTimerLive : Bool
  videoInterval : Bool
  sessionOpen : Bool
  inputAudioContext : Bool
  outputAudioContext : Bool
  outputStreamDestination : Bool
  scriptProcessor : Bool
  mediaStreamSource : Bool
  inputAudioStream : Bool
  outputAudioStream : Bool
  videoElement : Bool
  canvasElement : Bool
  audioSources : List ℕ
  stoppedSources : List ℕ
  nextStartTime : ℚ
  nextSourceId : ℕ
deriving DecidableEq, Repr

/-- The state after the hook mounts (all `useState` initial values, all refs
`null`). -/
def initState : OrchState where
  connectionState := .idle
  transcript := []
  interimTranscript := ⟨"", ""⟩
  currentInputTranscription := ""
  currentOutputTranscription := ""
  isModelThinking := false
  modelExpression := .neutral
  userSpeaking := false
  silenceTimerRef := false
  silenceTimerLive := false
  videoInterval := false
  sessionOpen := false
  inputAudioContext := false
  outputAudioContext := false
  outputStreamDestination := false
  scriptProcessor := false
  mediaStreamSource := false
  inputAudioStream := false
  outputAudioStream := false
  videoElement := false
  canvasElement := false
  audioSources := []
  stoppedSources := []
  nextStartTime := 0
  nextSourceId := 0

/-- `cleanup` (useGeminiLive.ts:191-221): close the audio contexts,
disconnect the audio graph nodes, stop the stream tracks, cancel both
timers, null the refs, reset thinking/expression, stop and clear every
tracked audio source, reset the playback cursor.  It does NOT touch the
finalized transcript, the interim transcript, the transcription refs, the
connection state, `userSpeakingRef`, or `silenceTimerRef` itself (the
timeout is cleared but the ref is not nulled). -/
def cleanup (s : OrchState) : OrchState :=
  { s with
    inputAudioContext := false
    outputAudioContext := false
    scriptProcessor := false
    mediaStreamSource := false
    inputAudioStream := false
    outputAudioStream := false
    silenceTimerLive := false
    videoInterval := false
    outputStreamDestination := false
    sessionOpen := false
    videoElement := false
    canvasElement := false
    isModelThinking := false
    modelExpression := .neutral
    stoppedSources := s.stoppedSources ++ s.audioSources
    audioSources := []
    nextStartTime := 0 }

/-- `clearTranscript` (useGeminiLive.ts:223-229). -/
def clearTranscript (s : OrchState) : OrchState :=
  { s with
    transcript := []
    interimTranscript := ⟨"", ""⟩
    currentInputTranscription := ""
    currentOutputTranscription := ""
    modelExpression := .neutral }

/-- The guard of `connect` (useGeminiLive.ts:247): bail out unless the state
is idle, closed or error. -/
def connectGuardBlocks (c : ConnectionState) : Bool :=
  decide (c ≠ .idle) && decide (c ≠ .closed) && decide (c ≠ .error)

/-- The synchronous prefix of `connect` after the guard
(useGeminiLive.ts:250-256): show `connecting`, clear the previous
transcript, interim transcript, transcription refs and expression. -/
def connectReset (s : OrchState) : OrchState :=
  { s with
    connectionState := .connecting
    transcript := []
    interimTranscript := ⟨"", ""⟩
    currentInputTranscription := ""
    currentOutputTranscription := ""
    modelExpression := .neutral }

/-- The `catch` block of `connect` (useGeminiLive.ts:545-549):
`setConnectionState('error'); cleanup()`. -/
def connectCatch (s : OrchState) : OrchState :=
  cleanup { s with connectionState := .error }

/-- The `try` block of `connect`: on success the audio contexts, streams and
session promise are acquired (the connection stays `connecting` until
`onopen` fires); any failure inside the block lands in the catch. -/
def connectTry (success : Bool) (isCameraOn : Bool) (s : OrchState) : OrchState :=
  if success then
    { s with
      outputAudioContext := true
      inputAudioStream := true
      inputAudioContext := true
      outputStreamDestination := true
      outputAudioStream := true
      videoElement := isCameraOn
      canvasElement := isCameraOn
      sessionOpen := true }
  else
    connectCatch s

/-- Guard plus synchronous prefix of `connect`. -/
def connectBegin (s : OrchState) : OrchState :=
  if connectGuardBlocks s.connectionState then s else connectReset s

/-- `connect` (useGeminiLive.ts:246-550), with the outcome of resource
acquisition and remote-session opening abstracted into `success`. -/
def connect (success : Bool) (isCameraOn : Bool) (s : OrchState) : OrchState :=
  if connectGuardBlocks s.connectionState then s
  else connectTry success isCameraOn (connectReset s)

/-- The `onopen` callback (useGeminiLive.ts:347-400): show `connected`, wire
the capture graph, start the video frame interval when the camera is on. -/
def onopen (isCameraOn : Bool) (s : OrchState) : OrchState :=
  { s with
    connectionState := .connected
    mediaStreamSource := true
    scriptProcessor := true
    videoInterval := isCameraOn }

/-- The mean square energy of a frame.  The code compares
`rms = sqrt(sum/len)` against `SILENCE_THRESHOLD = 0.01`; both sides being
non-negative, `rms > 0.01` iff `sum/len > 0.0001`, which is rational.  For
an empty frame JS computes `sqrt(0/0) = NaN`, every comparison with which
is false — matched here by `0 / 0 = 0`. -/
def frameMeanSquare (frame : List ℚ) : ℚ :=
  frame.foldl (fun sum x => sum + x * x) 0 / (frame.length : ℚ)

/-- `rms > SILENCE_THRESHOLD` for the frame. -/
def frameLoud (frame : List ℚ) : Bool :=
  decide (frameMeanSquare frame > 1 / 10000)

/-- `scriptProcessor.onaudioprocess` (useGeminiLive.ts:354-377), VAD part:
a loud frame marks the user speaking and cancels any pending silence timer
(nulling the ref); a quiet frame, when the user was speaking and no timer
ref is set, schedules the silence timeout.  (The frame is also packed with
`createBlob` and sent; that send carries no orchestrator state.) -/
def onaudioprocess (frame : List ℚ) (s : OrchState) : OrchState :=
  if frameLoud frame then
    { s with userSpeaking := true, silenceTimerRef := false, silenceTimerLive := false }
  else if s.userSpeaking && !s.silenceTimerRef then
    { s with silenceTimerRef := true, silenceTimerLive := true }
  else s

/-- The silence timeout firing (useGeminiLive.ts:368-372): only a scheduled,
never-cleared timeout can fire; it sets the thinking flag exactly when the
accumulated input transcription is non-whitespace, ends the speaking
episode, and nulls the timer ref. -/
def silenceTimerFires (s : OrchState) : OrchState :=
  if s.silenceTimerLive then
    { s with
      isModelThinking :=
        if (jsTrim s.currentInputTranscription).length > 0 then true else s.isModelThinking
      userSpeaking := false
      silenceTimerRef := false
      silenceTimerLive := false }
  else s

/-- `onmessage`, `inputTranscription` branch (useGeminiLive.ts:402-408):
cancel a pending silence timeout (without nulling the ref), reset the
expression to neutral, append the delta to the input transcription ref and
mirror it into the interim transcript. -/
def handleInputTranscription (text : String) (s : OrchState) : OrchState :=
  { s with
    silenceTimerLive := false
    modelExpression := .neutral
    currentInputTranscription := s.currentInputTranscription ++ text
    interimTranscript :=
      { s.interimTranscript with user := s.currentInputTranscription ++ text } }

/-- `onmessage`, `outputTranscription` branch (useGeminiLive.ts:409-416).
Line 410 reads `if (isModelThinking) setIsModelThinking(false)`, but the
`isModelThinking` it reads is the `useState` value captured by this closure
when `connect()` ran: the callbacks are registered once with the session and
never refreshed, and `connect` is reachable only from idle/closed/error,
where the flag is false.  The guard therefore always sees `false` and the
clear never executes — the handler leaves the thinking flag untouched
(unlike every ref-based read in the same closure, which stays live).  Then:
cancel a pending silence timeout, append the delta to the output
transcription ref, reclassify the expression on the accumulated output,
mirror into the interim transcript. -/
def handleOutputTranscription (text : String) (s : OrchState) : OrchState :=
  { s with
    silenceTimerLive := false
    currentOutputTranscription := s.currentOutputTranscription ++ text
    modelExpression := analyzeExpression (s.currentOutputTranscription ++ text)
    interimTranscript :=
      { s.interimTranscript with model := s.currentOutputTranscription ++ text } }

/-- `onmessage`, `toolCall` branch (useGeminiLive.ts:418-475).  Line 419\x27s
`if (isModelThinking) setIsModelThinking(false)` reads the same stale
connect-time closure value (always false), so it never fires and the
thinking flag is left untouched.  Inside `sessionPromiseRef.current?.then`
the dispatch loop runs — when the session promise ref is null nothing is
dispatched. -/
def handleToolCall (isCameraOn : Bool) (currentInputMode : String)
    (fcs : List FunctionCall) (s : OrchState) : OrchState × List CallOutcome :=
  if s.sessionOpen then
    (s, (runToolCalls isCameraOn currentInputMode fcs).1)
  else
    (s, [])

/-- `onmessage`, `turnComplete` branch (useGeminiLive.ts:477-501): cancel a
pending silence timeout, clear the thinking flag, collect citations from the
grounding chunks, and — when either accumulated transcription is
non-whitespace — append BOTH a user entry and a model entry; then reset the
transcription refs, the interim transcript and the expression. -/
def handleTurnComplete (chunks : List (Option Citation)) (now : ℕ)
    (s : OrchState) : OrchState :=
  let finalUserInput := s.currentInputTranscription
  let finalModelOutput := s.currentOutputTranscription
  let citations := chunks.filterMap id
  let s1 := { s with silenceTimerLive := false, isModelThinking := false }
  let s2 :=
    if jsTrim finalUserInput ≠ "" ∨ jsTrim finalModelOutput ≠ "" then
      { s1 with
        transcript := s1.transcript ++
          [ { speaker := .user, text := finalUserInput, id := "user-" ++ toString now },
            { speaker := .model, text := finalModelOutput, id := "model-" ++ toString now,
              citations := if citations.length > 0 then some citations else none } ] }
    else s1
  { s2 with
    currentInputTranscription := ""
    currentOutputTranscription := ""
    interimTranscript := ⟨"", ""⟩
    modelExpression := .neutral }

/-- `onmessage`, audio-chunk branch (useGeminiLive.ts:503-517): guard on the
output context, advance the cursor to `max(nextStartTime, currentTime)`,
schedule a fresh buffer source at the cursor, advance the cursor by the
buffer duration, track the source. -/
def handleAudio (duration currentTime : ℚ) (s : OrchState) : OrchState :=
  if s.outputAudioContext then
    let start := max s.nextStartTime currentTime
    { s with
      nextStartTime := start + duration
      audioSources := s.audioSources ++ [s.nextSourceId]
      nextSourceId := s.nextSourceId + 1 }
  else s

/-- `onmessage`, `interrupted` branch (useGeminiLive.ts:519-523): stop every
tracked source, clear the set, reset the cursor to `0`. -/
def handleInterrupted (s : OrchState) : OrchState :=
  { s with
    stoppedSources := s.stoppedSources ++ s.audioSources
    audioSources := []
    nextStartTime := 0 }

/-- The `ended` listener of a buffer source (useGeminiLive.ts:513): remove
it from the tracked set. -/
def sourceEnded (i : ℕ) (s : OrchState) : OrchState :=
  { s with audioSources := s.audioSources.erase i }

/-- One inbound `LiveServerMessage`, restricted to the parts `onmessage`
reads.  `audio` is the duration of the decoded chunk when one is present. -/
structure ServerMessage where
  inputTranscription : Option String := none
  outputTranscription : Option String := none
  toolCall : Option (List FunctionCall) := none
  turnComplete : Bool := false
  groundingChunks : List (Option Citation) := []
  audio : Option ℚ := none
  interrupted : Bool := false
deriving DecidableEq, Repr

/-- Result of processing one message: the new state and the outcomes of the
dispatched tool calls. -/
structure MsgResult where
  state : OrchState
  outcomes : List CallOutcome
deriving DecidableEq, Repr

/-- `onmessage` (useGeminiLive.ts:401-524): the six branches in source
order. -/
def onmessage (isCameraOn : Bool) (currentInputMode : String) (now : ℕ)
    (currentTime : ℚ) (msg : ServerMessage) (s : OrchState) : MsgResult :=
  let s := match msg.inputTranscription with
    | some text => handleInputTranscription text s
    | none => s
  let s := match msg.outputTranscription with
    | some text => handleOutputTranscription text s
    | none => s
  let r := match msg.toolCall with
    | some fcs => handleToolCall isCameraOn currentInputMode fcs s
    | none => (s, [])
  let s := r.1
  let s := if msg.turnComplete then handleTurnComplete msg.groundingChunks now s else s
  let s := match msg.audio with
    | some duration => handleAudio duration currentTime s
    | none => s
  let s := if msg.interrupted then handleInterrupted s else s
  ⟨s, r.2⟩

/-- The `onerror` callback (useGeminiLive.ts:525-529). -/
def onerror (s : OrchState) : OrchState :=
  cleanup { s with connectionState := .error }

/-- The `onclose` callback (useGeminiLive.ts:530-533). -/
def onclose (s : OrchState) : OrchState :=
  cleanup { s with connectionState := .closed }

/-- `disconnect` (useGeminiLive.ts:552-563): best-effort close of the remote
session — a throw from `session.close()` is caught and logged and changes
nothing (`closeThrows` records whether it threw) — then unconditionally
`cleanup()` and `setConnectionState('closed')`. -/
def disconnect (closeThrows : Bool) (s : OrchState) : OrchState :=
  { cleanup s with connectionState := .closed }

/-- `handleNewConversation` (src/App.tsx:54-59): disconnect when connected
or connecting, then clear the transcript. -/
def handleNewConversation (closeThrows : Bool) (s : OrchState) : OrchState :=
  let s1 :=
    if s.connectionState = .connected ∨ s.connectionState = .connecting then
      disconnect closeThrows s
    else s
  clearTranscript s1

/-- Every callback through which the orchestrator state can change. -/
inductive Event where
  | connectCall (success isCameraOn : Bool)
  | openCb (isCameraOn : Bool)
  | audioFrame (frame : List ℚ)
  | silenceElapsed
  | serverMessage (isCameraOn : Bool) (currentInputMode : String) (now : ℕ)
      (currentTime : ℚ) (msg : ServerMessage)
  | sourceDone (i : ℕ)
  | disconnectCall (closeThrows : Bool)
  | errorCb
  | closeCb
  | clearTranscriptCall
  | newConversationCall (closeThrows : Bool)
deriving Repr

/-- The orchestrator as one step function over events. -/
def step (e : Event) (s : OrchState) : OrchState :=
  match e with
  | .connectCall success cam => connect success cam s
  | .openCb cam => onopen cam s
  | .audioFrame frame => onaudioprocess frame s
  | .silenceElapsed => silenceTimerFires s
  | .serverMessage cam mode now ct msg => (onmessage cam mode now ct msg s).state
  | .sourceDone i => sourceEnded i s
  | .disconnectCall b => disconnect b s
  | .errorCb => onerror s
  | .closeCb => onclose s
  | .clearTranscriptCall => clearTranscript s
  | .newConversationCall b => handleNewConversation b s

/-- Full teardown has happened: no audio contexts, graph nodes, streams,
video machinery, timers or session survive; thinking and expression are
reset; every tracked source is stopped and untracked; the cursor is `0`. -/
def cleanedUp (s : OrchState) : Prop :=
  s.inputAudioContext = false ∧
  s.outputAudioContext = false ∧
  s.scriptProcessor = false ∧
  s.mediaStreamSource = false ∧
  s.inputAudioStream = false ∧
  s.outputAudioStream = false ∧
  s.silenceTimerLive = false ∧
  s.videoInterval = false ∧
  s.outputStreamDestination = false ∧
  s.sessionOpen = false ∧
  s.videoElement = false ∧
  s.canvasElement = false ∧
  s.isModelThinking = false ∧
  s.modelExpression = .neutral ∧
  s.audioSources = [] ∧
  s.nextStartTime = 0

/-! ## Concrete states and calls used by counterexamples and witnesses -/

/-- A state mid-turn: the user has said "hello", the model nothing yet. -/
def stateUserOnly : OrchState :=
  { initState with
    connectionState := .connected
    currentInputTranscription := "hello"
    interimTranscript := ⟨"hello", ""⟩ }

/-- A connected state with a non-empty finalized transcript. -/
def stateWithTranscript : OrchState :=
  { initState with
    connectionState := .connected
    transcript := [⟨.user, "hi", "user-1", none⟩] }

/-- A connected state with two scheduled playback sources. -/
def stateWithSources : OrchState :=
  { initState with
    connectionState := .connected
    sessionOpen := true
    outputAudioContext := true
    audioSources := [3, 5]
    nextStartTime := 7
    nextSourceId := 6 }

/-- A `changeTheme` call whose required `themeName` argument is missing. -/
def badThemeCall : FunctionCall :=
  ⟨"call-1", "changeTheme", {}⟩

/-- A state in a speaking episode with the silence timeout scheduled and
accumulated input text. -/
def stateTimerArmed : OrchState :=
  { initState with
    connectionState := .connected
    userSpeaking := true
    silenceTimerRef := true
    silenceTimerLive := true
    currentInputTranscription := "hello" }

/-- A state in a speaking episode with no timer scheduled yet. -/
def stateSpeaking : OrchState :=
  { initState with connectionState := .connected, userSpeaking := true }

/-- A mid-turn state in which the silence timeout has elapsed after the user
said "hello" and set the thinking flag. -/
def stateThinking : OrchState :=
  { initState with
    connectionState := .connected
    sessionOpen := true
    currentInputTranscription := "hello"
    interimTranscript := ⟨"hello", ""⟩
    isModelThinking := true }

/-!
# Theorems
-/

/-! ### C6 — expression classifier -/

example : analyzeExpression "How are you?" = .inquisitive := by decide
example : analyzeExpression "The sky is blue" = .neutral := by decide

/-! ### Codec lemmas -/

/-- A rational in `[-32768, 32768)` truncates into the representable signed
16-bit range, so the wrap step is the identity on it. -/
theorem ratTrunc_mem_int16_range (q : ℚ) (h1 : (-32768 : ℚ) ≤ q)
    (h2 : q < 32768) : -32768 ≤ ratTrunc q ∧ ratTrunc q ≤ 32767 := by
  unfold ratTrunc
  split
  · constructor
    · have : (0:ℤ) ≤ ⌊q⌋ := Int.floor_nonneg.mpr (by assumption)
      omega
    · have : ⌊q⌋ < 32768 :=
        Int.floor_lt.mpr (show q < ((32768 : ℤ) : ℚ) by exact_mod_cast h2)
      omega
  · constructor
    · have h' : ⌈((-32768 : ℤ) : ℚ)⌉ ≤ ⌈q⌉ := Int.ceil_mono (by exact_mod_cast h1)
      simpa using h'
    · have : ⌈q⌉ ≤ 0 := Int.ceil_le.mpr (by push_cast; linarith)
      omega

theorem toInt16Wrap_of_mem_range (n : ℤ) (h1 : -32768 ≤ n) (h2 : n ≤ 32767) :
    toInt16Wrap n = n := by
  simp only [toInt16Wrap]
  split <;> omega

theorem jsToInt16_one : jsToInt16 1 = -32768 := by
  have h1 : ((1 : ℚ) * 32768) = ((32768 : ℤ) : ℚ) := by norm_num
  have h2 : ratTrunc ((32768 : ℤ) : ℚ) = 32768 := by
    unfold ratTrunc
    rw [if_pos (by norm_num), Int.floor_intCast]
  unfold jsToInt16
  rw [h1, h2]
  decide

/-! ## Claim theorems -/

/-- C6: for every input string the expression classifier returns the first
matching category in the fixed priority order — celebratory > positive >
empathetic > trailing question mark (inquisitive) > neutral — with
case-insensitive substring matching, and in particular classifies the four
example utterances as the spec states. -/
theorem expression_classifier_priority :
    (∀ text, analyzeExpression text = classifySpec text) ∧
    analyzeExpression "That\x27s fantastic, congratulations!" = .celebratory ∧
    analyzeExpression "How are you?" = .inquisitive ∧
    analyzeExpression "I understand, that\x27s tough" = .empathetic ∧
    analyzeExpression "The sky is blue" = .neutral :=
  ⟨fun _ => rfl, by decide, by decide, by decide, by decide⟩

/-- C10: `createBlob` packs each float sample `x` by computing `x * 32768`
and storing it into a 16-bit signed integer with truncation and wrap-around
modulo `2 ^ 16` (no clamping); a full-scale sample of exactly `1.0` encodes
as `-32768`, every `x` in `[-1, 1)` encodes as the truncation of
`x * 32768`, and the returned mime type is always
`audio/pcm;rate=16000`. -/
theorem createBlob_pcm_packing :
    (∀ xs : List ℚ, (createBlob xs).mimeType = "audio/pcm;rate=16000") ∧
    (∀ xs : List ℚ,
      createBlobInt16 xs = xs.map (fun x => toInt16Wrap (ratTrunc (x * 32768)))) ∧
    jsToInt16 1 = -32768 ∧
    (∀ x : ℚ, -1 ≤ x → x < 1 → jsToInt16 x = ratTrunc (x * 32768)) := by
  refine ⟨fun _ => rfl, fun _ => rfl, jsToInt16_one, ?_⟩
  intro x hx1 hx2
  have h1 : (-32768 : ℚ) ≤ x * 32768 := by nlinarith
  have h2 : x * 32768 < 32768 := by nlinarith
  obtain ⟨hl, hr⟩ := ratTrunc_mem_int16_range (x * 32768) h1 h2
  unfold jsToInt16
  exact toInt16Wrap_of_mem_range _ hl hr

theorem createBlob_pcm_packing_witness :
    (-1 : ℚ) ≤ -1/2 ∧ (-1/2 : ℚ) < 1 ∧
    jsToInt16 (-1/2) = ratTrunc (-1/2 * 32768) :=
  ⟨by norm_num, by norm_num,
    createBlob_pcm_packing.2.2.2 (-1/2) (by norm_num) (by norm_num)⟩

/-- C3: `connect` is a no-op in states connecting/connected (no state
transition, no transcript reset, no resource acquisition); in an allowed
state (idle/closed/error) its synchronous prefix transitions to connecting
and resets the transcript, interim transcript, transcription refs and
expression, after which the try block runs on that reset state. -/
theorem connect_guarded_noop :
    ∀ (s : OrchState) (success cam : Bool),
      if s.connectionState = .connecting ∨ s.connectionState = .connected then
        connect success cam s = s
      else
        (connectBegin s).connectionState = .connecting ∧
        (connectBegin s).transcript = [] ∧
        (connectBegin s).interimTranscript = ⟨"", ""⟩ ∧
        (connectBegin s).currentInputTranscription = "" ∧
        (connectBegin s).currentOutputTranscription = "" ∧
        (connectBegin s).modelExpression = .neutral ∧
        connect success cam s = connectTry success cam (connectBegin s) := by
  intro s success cam
  cases h : s.connectionState <;>
    simp [connect, connectBegin, connectGuardBlocks, connectReset, h]

/-- C4: every terminal transition runs the full teardown: the transport
error callback tears down and shows `error`; the remote close callback tears
down and shows `closed`; a failure inside `connect` tears down and shows
`error`; `disconnect` tears down and shows `closed` whether or not closing
the remote session threw. -/
theorem terminal_transitions_teardown :
    ∀ (s : OrchState) (closeThrows : Bool),
      ((onerror s).connectionState = .error ∧ cleanedUp (onerror s)) ∧
      ((onclose s).connectionState = .closed ∧ cleanedUp (onclose s)) ∧
      ((connectCatch s).connectionState = .error ∧ cleanedUp (connectCatch s)) ∧
      ((disconnect closeThrows s).connectionState = .closed ∧
        cleanedUp (disconnect closeThrows s)) := by
  intro s closeThrows
  refine ⟨⟨rfl, ?_⟩, ⟨rfl, ?_⟩, ⟨rfl, ?_⟩, ⟨rfl, ?_⟩⟩ <;>
    simp [onerror, onclose, connectCatch, disconnect, cleanup, cleanedUp]

/-- C9 counterexample: after `disconnect` completes on a connected state
with one finalized entry, the finalized transcript is NOT empty (neither
`disconnect` nor `cleanup` touches it), refuting "after disconnect()
completes the finalized transcript sequence is empty". -/
theorem disconnect_keeps_transcript :
    (disconnect false stateWithTranscript).connectionState = .closed ∧
    (disconnect false stateWithTranscript).transcript ≠ [] := by decide

/-- C9 (amended): finalized entries live until the conversation is replaced:
the new-conversation command empties the finalized transcript, and so does
the next `connect` after a disconnect; `disconnect` itself leaves the
finalized transcript untouched while closing the session. -/
theorem transcript_lifetime :
    ∀ (s : OrchState) (closeThrows success cam : Bool),
      (handleNewConversation closeThrows s).transcript = [] ∧
      (disconnect closeThrows s).transcript = s.transcript ∧
      (disconnect closeThrows s).connectionState = .closed ∧
      (connect success cam (disconnect closeThrows s)).transcript = [] := by
  intro s closeThrows success cam
  refine ⟨rfl, rfl, rfl, ?_⟩
  cases success <;> rfl

/-- C1 counterexample: a turn-complete with interim user text "hello" and
empty interim model text appends TWO entries — including a model entry with
empty text — not one entry for the single non-empty side. -/
theorem turnComplete_appends_empty_model_entry :
    ((handleTurnComplete [] 0 stateUserOnly).transcript.map
      (fun e => (e.speaker, e.text))) = [(.user, "hello"), (.model, "")] ∧
    (handleTurnComplete [] 0 stateUserOnly).transcript.length ≠ 1 := by decide

/-- C1 (amended): on turn-complete, when either interim side is
non-whitespace the orchestrator appends exactly two entries — one user entry
and one model entry, the model entry carrying the collected citations and
possibly empty text — and zero entries when both sides are whitespace-only;
afterwards the interim transcript and transcription refs are reset to empty
strings and the expression to neutral. -/
theorem turnComplete_finalization :
    ∀ (s : OrchState) (chunks : List (Option Citation)) (now : ℕ),
      (handleTurnComplete chunks now s).interimTranscript = ⟨"", ""⟩ ∧
      (handleTurnComplete chunks now s).currentInputTranscription = "" ∧
      (handleTurnComplete chunks now s).currentOutputTranscription = "" ∧
      (handleTurnComplete chunks now s).modelExpression = .neutral ∧
      (handleTurnComplete chunks now s).transcript = s.transcript ++
        (if jsTrim s.currentInputTranscription ≠ "" ∨
            jsTrim s.currentOutputTranscription ≠ "" then
          [ ⟨.user, s.currentInputTranscription, "user-" ++ toString now, none⟩,
            ⟨.model, s.currentOutputTranscription, "model-" ++ toString now,
              if (chunks.filterMap id).length > 0 then some (chunks.filterMap id)
              else none⟩ ]
         else []) := by
  intro s chunks now
  by_cases hc : jsTrim s.currentInputTranscription ≠ "" ∨
      jsTrim s.currentOutputTranscription ≠ "" <;>
    simp [handleTurnComplete, hc]

/-- C7: a `toggleCamera` call always yields exactly one tool response with
its id and result `"ok"`, and the `onToggleCamera` callback is invoked
exactly when the desired state (`state == "on"`) differs from the current
camera state — in particular not at all when they agree. -/
theorem toggleCamera_idempotence :
    ∀ (cam : Bool) (mode id : String) (args : FunctionArgs),
      ((runToolCalls cam mode [⟨id, "toggleCamera", args⟩]).1.map
          (fun o => (o.response, o.callbacks)) =
        [(⟨id, "toggleCamera", "ok"⟩,
          if (args.state == some "on") ≠ cam then [AppCallback.onToggleCamera]
          else [])]) ∧
      (runToolCalls cam mode [⟨id, "toggleCamera", args⟩]).2 = false := by
  intro cam mode id args
  by_cases h : (args.state == some "on") ≠ cam <;>
    simp [runToolCalls, handleFunctionCall, dispatchSwitch, h]

/-- The dispatch switch throws only in the `changeTheme` case with a missing
`themeName`; any other call produces dispatch variables. -/
theorem dispatchSwitch_ok (cam : Bool) (mode : String) (fc : FunctionCall)
    (h : fc.name = "changeTheme" → fc.args.themeName.isSome = true) :
    ∃ v, dispatchSwitch cam mode fc = .ok v := by
  unfold dispatchSwitch
  split
  · exact ⟨_, rfl⟩
  · exact ⟨_, rfl⟩
  · rename_i hname
    cases hn : fc.args.themeName with
    | none => rw [hname] at h; simp [hn] at h
    | some t =>
      dsimp only
      cases THEMES.find? (fun th => jsToLower th.name == jsToLower t) <;>
        exact ⟨_, rfl⟩
  · exact ⟨_, rfl⟩
  · exact ⟨_, rfl⟩
  · exact ⟨_, rfl⟩
  · exact ⟨_, rfl⟩

/-- A call that dispatches without throwing yields exactly one outcome whose
response echoes the call id and name. -/
theorem handleFunctionCall_ok (cam : Bool) (mode : String) (fc : FunctionCall)
    (h : fc.name = "changeTheme" → fc.args.themeName.isSome = true) :
    ∃ out : CallOutcome, handleFunctionCall cam mode fc = .ok out ∧
      out.response.id = fc.id ∧ out.response.name = fc.name := by
  obtain ⟨v, hv⟩ := dispatchSwitch_ok cam mode fc h
  exact ⟨_, by unfold handleFunctionCall; rw [hv], rfl, rfl⟩

/-- C2 (amended): for every function call in a received batch in which each
`changeTheme` call carries its required `themeName` argument, the
orchestrator sends exactly one tool response carrying that call\x27s id and
name; an unknown tool name gets the explanatory
`Unknown function call: <name>` result payload with no callback; and the
tool-call branch never changes the connection state, session or transcript
(the session continues). -/
theorem toolCall_one_response_per_call :
    ∀ (cam : Bool) (mode : String),
      (∀ fcs : List FunctionCall,
        (∀ fc ∈ fcs, fc.name = "changeTheme" → fc.args.themeName.isSome = true) →
        (runToolCalls cam mode fcs).2 = false ∧
        (runToolCalls cam mode fcs).1.map
            (fun o => (o.response.id, o.response.name)) =
          fcs.map (fun fc => (fc.id, fc.name))) ∧
      (∀ fc : FunctionCall, fc.name ∉ knownToolNames →
        handleFunctionCall cam mode fc =
          .ok ⟨⟨fc.id, fc.name, "Unknown function call: " ++ fc.name⟩, [], none⟩) ∧
      (∀ (s : OrchState) (fcs : List FunctionCall),
        (handleToolCall cam mode fcs s).1.connectionState = s.connectionState ∧
        (handleToolCall cam mode fcs s).1.sessionOpen = s.sessionOpen ∧
        (handleToolCall cam mode fcs s).1.transcript = s.transcript) := by
  intro cam mode
  refine ⟨?_, ?_, ?_⟩
  · intro fcs
    induction fcs with
    | nil => intro _; simp [runToolCalls]
    | cons fc rest ih =>
      intro h
      obtain ⟨out, hout, hid, hname⟩ :=
        handleFunctionCall_ok cam mode fc (h fc (by simp))
      obtain ⟨h2a, h2b⟩ := ih (fun g hg => h g (List.mem_cons_of_mem _ hg))
      simp [runToolCalls, hout, h2a, h2b, hid, hname]
  · intro fc h
    simp only [knownToolNames, List.mem_cons, List.mem_singleton, not_or] at h
    obtain ⟨h1, h2, h3, h4, h5, h6⟩ := h
    have hd : dispatchSwitch cam mode fc =
        .ok { result := "Unknown function call: " ++ fc.name, isAppCommand := false } := by
      unfold dispatchSwitch
      split <;> simp_all
    unfold handleFunctionCall
    rw [hd]
    simp
  · intro s fcs
    unfold handleToolCall
    split <;> exact ⟨rfl, rfl, rfl⟩

/-- C2 counterexample: a batch consisting of one `changeTheme` call with the
`themeName` argument missing throws a `TypeError` while dispatching, so ZERO
tool responses are produced for a batch of one call — the claim\x27s "exactly
one tool response per function call" fails on it. -/
theorem changeTheme_missing_arg_drops_responses :
    (runToolCalls false "voice" [badThemeCall]).1.length = 0 ∧
    (runToolCalls false "voice" [badThemeCall]).2 = true := by decide

theorem toolCall_one_response_per_call_witness :
    ((runToolCalls true "voice" [⟨"w1", "frobnicate", {}⟩]).2 = false ∧
      (runToolCalls true "voice" [⟨"w1", "frobnicate", {}⟩]).1.map
          (fun o => (o.response.id, o.response.name)) = [("w1", "frobnicate")]) ∧
    handleFunctionCall true "voice" ⟨"w1", "frobnicate", {}⟩ =
      .ok ⟨⟨"w1", "frobnicate", "Unknown function call: " ++ "frobnicate"⟩,
        [], none⟩ ∧
    ((handleToolCall true "voice" [⟨"w1", "frobnicate", {}⟩] initState).1.connectionState =
        initState.connectionState ∧
      (handleToolCall true "voice" [⟨"w1", "frobnicate", {}⟩] initState).1.sessionOpen =
        initState.sessionOpen ∧
      (handleToolCall true "voice" [⟨"w1", "frobnicate", {}⟩] initState).1.transcript =
        initState.transcript) := by
  refine ⟨?_, ?_, ?_⟩
  · have h := (toolCall_one_response_per_call true "voice").1
      [⟨"w1", "frobnicate", {}⟩] (by decide)
    simpa using h
  · exact (toolCall_one_response_per_call true "voice").2.1 _ (by decide)
  · exact (toolCall_one_response_per_call true "voice").2.2 initState
      [⟨"w1", "frobnicate", {}⟩]

/-! ### Source-list preservation across the message branches -/

theorem handleInputTranscription_sources (t : String) (s : OrchState) :
    (handleInputTranscription t s).audioSources = s.audioSources ∧
    (handleInputTranscription t s).stoppedSources = s.stoppedSources :=
  ⟨rfl, rfl⟩

theorem handleOutputTranscription_sources (t : String) (s : OrchState) :
    (handleOutputTranscription t s).audioSources = s.audioSources ∧
    (handleOutputTranscription t s).stoppedSources = s.stoppedSources :=
  ⟨rfl, rfl⟩

theorem handleToolCall_sources (cam : Bool) (mode : String)
    (fcs : List FunctionCall) (s : OrchState) :
    (handleToolCall cam mode fcs s).1.audioSources = s.audioSources ∧
    (handleToolCall cam mode fcs s).1.stoppedSources = s.stoppedSources := by
  unfold handleToolCall
  split <;> exact ⟨rfl, rfl⟩

theorem handleTurnComplete_sources (chunks : List (Option Citation)) (now : ℕ)
    (s : OrchState) :
    (handleTurnComplete chunks now s).audioSources = s.audioSources ∧
    (handleTurnComplete chunks now s).stoppedSources = s.stoppedSources := by
  by_cases hc : jsTrim s.currentInputTranscription ≠ "" ∨
      jsTrim s.currentOutputTranscription ≠ "" <;>
    simp [handleTurnComplete, hc]

theorem handleAudio_stopped (d ct : ℚ) (s : OrchState) :
    (handleAudio d ct s).stoppedSources = s.stoppedSources := by
  unfold handleAudio
  split <;> rfl

theorem handleAudio_sources_or (d ct : ℚ) (p : OrchState) (b : List ℕ)
    (h : p.audioSources = b) :
    (handleAudio d ct p).audioSources = b ∨
    ∃ j, (handleAudio d ct p).audioSources = b ++ [j] := by
  unfold handleAudio
  split
  · right; exact ⟨p.nextSourceId, by simp [h]⟩
  · left; exact h

/-- After `handleInterrupted` runs on a state whose source lists descend
from `s` by at most one scheduled addition, the tracked set is empty, the
cursor is reset, and every source `s` was tracking has been stopped. -/
theorem handleInterrupted_post (p s : OrchState)
    (ha : p.audioSources = s.audioSources ∨
      ∃ j, p.audioSources = s.audioSources ++ [j])
    (hs : p.stoppedSources = s.stoppedSources) :
    (handleInterrupted p).audioSources = [] ∧
    (handleInterrupted p).nextStartTime = 0 ∧
    s.audioSources ⊆ (handleInterrupted p).stoppedSources := by
  refine ⟨rfl, rfl, ?_⟩
  show s.audioSources ⊆ p.stoppedSources ++ p.audioSources
  rw [hs]
  rcases ha with h | ⟨j, h⟩ <;> rw [h]
  · exact List.subset_append_right _ _
  · intro a ha2
    exact List.mem_append_right _ (List.mem_append_left _ ha2)

/-- C8: processing a message carrying the `interrupted` signal clears all
pending model speech: afterwards the tracked audio-source set is empty, the
next-start-time cursor is `0`, and every source that was scheduled before
the message has been stopped. -/
theorem interrupted_clears_playback :
    ∀ (s : OrchState) (cam : Bool) (mode : String) (now : ℕ) (ct : ℚ)
      (msg : ServerMessage), msg.interrupted = true →
      (onmessage cam mode now ct msg s).state.audioSources = [] ∧
      (onmessage cam mode now ct msg s).state.nextStartTime = 0 ∧
      s.audioSources ⊆ (onmessage cam mode now ct msg s).state.stoppedSources := by
  intro s cam mode now ct msg hintr
  obtain ⟨mit, mot, mtc, mtr, mgc, mau, mint⟩ := msg
  simp only at hintr
  subst hintr
  unfold onmessage
  dsimp only
  apply handleInterrupted_post
  case hs =>
    cases mit <;> cases mot <;> cases mtc <;> cases mtr <;> cases mau <;>
      simp [handleAudio_stopped,
        (handleTurnComplete_sources _ _ _).2, (handleToolCall_sources _ _ _ _).2,
        (handleOutputTranscription_sources _ _).2,
        (handleInputTranscription_sources _ _).2]
  case ha =>
    cases mit <;> cases mot <;> cases mtc <;> cases mtr <;> cases mau <;>
      first
        | (left
           simp [(handleTurnComplete_sources _ _ _).1,
             (handleToolCall_sources _ _ _ _).1,
             (handleOutputTranscription_sources _ _).1,
             (handleInputTranscription_sources _ _).1]
           done)
        | (apply handleAudio_sources_or
           simp [(handleTurnComplete_sources _ _ _).1,
             (handleToolCall_sources _ _ _ _).1,
             (handleOutputTranscription_sources _ _).1,
             (handleInputTranscription_sources _ _).1])

/-! ### Flag behaviour of the individual handlers -/

theorem handleInputTranscription_flags (t : String) (s : OrchState) :
    (handleInputTranscription t s).isModelThinking = s.isModelThinking ∧
    (handleInputTranscription t s).silenceTimerLive = false ∧
    (handleInputTranscription t s).userSpeaking = s.userSpeaking :=
  ⟨rfl, rfl, rfl⟩

theorem handleOutputTranscription_flags (t : String) (s : OrchState) :
    (handleOutputTranscription t s).isModelThinking = s.isModelThinking ∧
    (handleOutputTranscription t s).silenceTimerLive = false ∧
    (handleOutputTranscription t s).userSpeaking = s.userSpeaking :=
  ⟨rfl, rfl, rfl⟩

theorem handleToolCall_flags (cam : Bool) (mode : String)
    (fcs : List FunctionCall) (s : OrchState) :
    (handleToolCall cam mode fcs s).1.isModelThinking = s.isModelThinking ∧
    (handleToolCall cam mode fcs s).1.silenceTimerLive = s.silenceTimerLive ∧
    (handleToolCall cam mode fcs s).1.userSpeaking = s.userSpeaking := by
  unfold handleToolCall
  split <;> exact ⟨rfl, rfl, rfl⟩

theorem handleTurnComplete_flags (chunks : List (Option Citation)) (now : ℕ)
    (s : OrchState) :
    (handleTurnComplete chunks now s).isModelThinking = false ∧
    (handleTurnComplete chunks now s).silenceTimerLive = false ∧
    (handleTurnComplete chunks now s).userSpeaking = s.userSpeaking := by
  by_cases hc : jsTrim s.currentInputTranscription ≠ "" ∨
      jsTrim s.currentOutputTranscription ≠ "" <;>
    simp [handleTurnComplete, hc]

theorem handleAudio_flags (d ct : ℚ) (s : OrchState) :
    (handleAudio d ct s).isModelThinking = s.isModelThinking ∧
    (handleAudio d ct s).silenceTimerLive = s.silenceTimerLive ∧
    (handleAudio d ct s).userSpeaking = s.userSpeaking := by
  unfold handleAudio
  split <;> simp

theorem handleInterrupted_flags (s : OrchState) :
    (handleInterrupted s).isModelThinking = s.isModelThinking ∧
    (handleInterrupted s).silenceTimerLive = s.silenceTimerLive ∧
    (handleInterrupted s).userSpeaking = s.userSpeaking :=
  ⟨rfl, rfl, rfl⟩

/-- Across one inbound message the thinking flag can only be preserved or
cleared, never raised. -/
theorem onmessage_thinking_mono (cam : Bool) (mode : String) (now : ℕ)
    (ct : ℚ) (msg : ServerMessage) (s : OrchState) :
    (onmessage cam mode now ct msg s).state.isModelThinking = true →
    s.isModelThinking = true := by
  obtain ⟨mit, mot, mtc, mtr, mgc, mau, mint⟩ := msg
  unfold onmessage
  dsimp only
  cases mit <;> cases mot <;> cases mtc <;> cases mtr <;> cases mau <;>
    cases mint <;>
    simp [(handleInputTranscription_flags _ _).1,
      (handleOutputTranscription_flags _ _).1, (handleToolCall_flags _ _ _ _).1,
      (handleTurnComplete_flags _ _ _).1, (handleAudio_flags _ _ _).1,
      (handleInterrupted_flags _).1]

/-- Across one inbound message the silence timer can only stay or be
cancelled, never scheduled. -/
theorem onmessage_live_mono (cam : Bool) (mode : String) (now : ℕ)
    (ct : ℚ) (msg : ServerMessage) (s : OrchState) :
    (onmessage cam mode now ct msg s).state.silenceTimerLive = true →
    s.silenceTimerLive = true := by
  obtain ⟨mit, mot, mtc, mtr, mgc, mau, mint⟩ := msg
  unfold onmessage
  dsimp only
  cases mit <;> cases mot <;> cases mtc <;> cases mtr <;> cases mau <;>
    cases mint <;>
    simp [(handleInputTranscription_flags _ _).2.1,
      (handleOutputTranscription_flags _ _).2.1,
      (handleToolCall_flags _ _ _ _).2.1, (handleTurnComplete_flags _ _ _).2.1,
      (handleAudio_flags _ _ _).2.1, (handleInterrupted_flags _).2.1]

/-- No inbound message touches the VAD speaking flag. -/
theorem onmessage_userSpeaking (cam : Bool) (mode : String) (now : ℕ)
    (ct : ℚ) (msg : ServerMessage) (s : OrchState) :
    (onmessage cam mode now ct msg s).state.userSpeaking = s.userSpeaking := by
  obtain ⟨mit, mot, mtc, mtr, mgc, mau, mint⟩ := msg
  unfold onmessage
  dsimp only
  cases mit <;> cases mot <;> cases mtc <;> cases mtr <;> cases mau <;>
    cases mint <;>
    simp [(handleInputTranscription_flags _ _).2.2,
      (handleOutputTranscription_flags _ _).2.2,
      (handleToolCall_flags _ _ _ _).2.2, (handleTurnComplete_flags _ _ _).2.2,
      (handleAudio_flags _ _ _).2.2, (handleInterrupted_flags _).2.2]

theorem connect_flags_mono (success cam : Bool) (s : OrchState) :
    ((connect success cam s).isModelThinking = true → s.isModelThinking = true) ∧
    ((connect success cam s).silenceTimerLive = true → s.silenceTimerLive = true) ∧
    (connect success cam s).userSpeaking = s.userSpeaking := by
  unfold connect
  split
  · exact ⟨id, id, rfl⟩
  · cases success <;>
      simp [connectTry, connectCatch, cleanup, connectReset]

theorem handleNewConversation_flags_mono (b : Bool) (s : OrchState) :
    ((handleNewConversation b s).isModelThinking = true →
      s.isModelThinking = true) ∧
    ((handleNewConversation b s).silenceTimerLive = true →
      s.silenceTimerLive = true) ∧
    (handleNewConversation b s).userSpeaking = s.userSpeaking := by
  unfold handleNewConversation
  split <;> simp [clearTranscript, disconnect, cleanup]

/-- The thinking flag becomes true only when a scheduled silence timeout
elapses with non-whitespace accumulated input text; a quiet frame schedules
that timeout only during a speaking episode, and only a loud frame starts
one.  (The flag is cleared at turn completion and on teardown — but NOT on
output deltas or tool calls, whose guards read a stale closure value; see
`output_delta_and_tool_call_leave_thinking_set`.) -/
theorem thinking_flag_lifecycle :
    ∀ (s : OrchState) (e : Event),
      ((step e s).isModelThinking = true →
        s.isModelThinking = true ∨
          (e = .silenceElapsed ∧ s.silenceTimerLive = true ∧
            (jsTrim s.currentInputTranscription).length > 0)) ∧
      ((step e s).silenceTimerLive = true →
        s.silenceTimerLive = true ∨
          (∃ frame, e = .audioFrame frame ∧ frameLoud frame = false ∧
            s.userSpeaking = true)) ∧
      ((step e s).userSpeaking = true →
        s.userSpeaking = true ∨
          (∃ frame, e = .audioFrame frame ∧ frameLoud frame = true)) := by
  intro s e
  cases e with
  | connectCall success cam =>
    refine ⟨fun h => Or.inl ((connect_flags_mono success cam s).1 h),
      fun h => Or.inl ((connect_flags_mono success cam s).2.1 h),
      fun h => Or.inl (((connect_flags_mono success cam s).2.2) ▸ h)⟩
  | openCb cam =>
    exact ⟨fun h => Or.inl h, fun h => Or.inl h, fun h => Or.inl h⟩
  | audioFrame frame =>
    refine ⟨?_, ?_, ?_⟩
    · show (onaudioprocess frame s).isModelThinking = true → _
      unfold onaudioprocess
      by_cases hL : frameLoud frame = true
      · rw [if_pos hL]; exact fun h => Or.inl h
      · rw [if_neg hL]
        by_cases hA : (s.userSpeaking && !s.silenceTimerRef) = true
        · rw [if_pos hA]; exact fun h => Or.inl h
        · rw [if_neg hA]; exact fun h => Or.inl h
    · show (onaudioprocess frame s).silenceTimerLive = true → _
      unfold onaudioprocess
      by_cases hL : frameLoud frame = true
      · rw [if_pos hL]; exact fun h => nomatch h
      · rw [if_neg hL]
        by_cases hA : (s.userSpeaking && !s.silenceTimerRef) = true
        · rw [if_pos hA]
          exact fun _ => Or.inr ⟨frame, rfl, by simp_all, by simp_all⟩
        · rw [if_neg hA]; exact fun h => Or.inl h
    · show (onaudioprocess frame s).userSpeaking = true → _
      unfold onaudioprocess
      by_cases hL : frameLoud frame = true
      · rw [if_pos hL]; exact fun _ => Or.inr ⟨frame, rfl, hL⟩
      · rw [if_neg hL]
        by_cases hA : (s.userSpeaking && !s.silenceTimerRef) = true
        · rw [if_pos hA]; exact fun h => Or.inl h
        · rw [if_neg hA]; exact fun h => Or.inl h
  | silenceElapsed =>
    refine ⟨?_, ?_, ?_⟩
    · show (silenceTimerFires s).isModelThinking = true → _
      unfold silenceTimerFires
      by_cases hl : s.silenceTimerLive = true
      · by_cases htr : (jsTrim s.currentInputTranscription).length > 0
        · exact fun _ => Or.inr ⟨rfl, hl, htr⟩
        · simp [hl, htr]
      · simp [hl]
    · show (silenceTimerFires s).silenceTimerLive = true → _
      unfold silenceTimerFires
      by_cases hl : s.silenceTimerLive = true <;> simp [hl]
    · show (silenceTimerFires s).userSpeaking = true → _
      unfold silenceTimerFires
      by_cases hl : s.silenceTimerLive = true <;> simp [hl]
  | serverMessage cam mode now ct msg =>
    exact ⟨fun h => Or.inl (onmessage_thinking_mono cam mode now ct msg s h),
      fun h => Or.inl (onmessage_live_mono cam mode now ct msg s h),
      fun h => Or.inl ((onmessage_userSpeaking cam mode now ct msg s) ▸ h)⟩
  | sourceDone i =>
    exact ⟨fun h => Or.inl h, fun h => Or.inl h, fun h => Or.inl h⟩
  | disconnectCall b =>
    exact ⟨fun h => by simp [step, disconnect, cleanup] at h,
      fun h => by simp [step, disconnect, cleanup] at h,
      fun h => Or.inl h⟩
  | errorCb =>
    exact ⟨fun h => by simp [step, onerror, cleanup] at h,
      fun h => by simp [step, onerror, cleanup] at h,
      fun h => Or.inl h⟩
  | closeCb =>
    exact ⟨fun h => by simp [step, onclose, cleanup] at h,
      fun h => by simp [step, onclose, cleanup] at h,
      fun h => Or.inl h⟩
  | clearTranscriptCall =>
    exact ⟨fun h => Or.inl h, fun h => Or.inl h, fun h => Or.inl h⟩
  | newConversationCall b =>
    exact ⟨fun h => Or.inl ((handleNewConversation_flags_mono b s).1 h),
      fun h => Or.inl ((handleNewConversation_flags_mono b s).2.1 h),
      fun h => Or.inl (((handleNewConversation_flags_mono b s).2.2) ▸ h)⟩

theorem frameLoud_nil : frameLoud [] = false := by
  simp only [frameLoud, frameMeanSquare, List.foldl_nil, List.length_nil,
    Nat.cast_zero, div_zero]
  norm_num

theorem frameLoud_one : frameLoud [1] = true := by
  simp only [frameLoud, frameMeanSquare, List.foldl_cons, List.foldl_nil,
    List.length_cons, List.length_nil]
  norm_num

theorem thinking_flag_lifecycle_witness :
    (stateTimerArmed.isModelThinking = true ∨
      (Event.silenceElapsed = Event.silenceElapsed ∧
        stateTimerArmed.silenceTimerLive = true ∧
        (jsTrim stateTimerArmed.currentInputTranscription).length > 0)) ∧
    (stateSpeaking.silenceTimerLive = true ∨
      (∃ frame, Event.audioFrame ([] : List ℚ) = Event.audioFrame frame ∧
        frameLoud frame = false ∧ stateSpeaking.userSpeaking = true)) ∧
    (initState.userSpeaking = true ∨
      (∃ frame, Event.audioFrame ([1] : List ℚ) = Event.audioFrame frame ∧
        frameLoud frame = true)) := by
  refine ⟨?_, ?_, ?_⟩
  · exact (thinking_flag_lifecycle stateTimerArmed .silenceElapsed).1 (by decide)
  · exact (thinking_flag_lifecycle stateSpeaking (.audioFrame [])).2.1
      (by simp [step, onaudioprocess, frameLoud_nil, stateSpeaking, initState])
  · exact (thinking_flag_lifecycle initState (.audioFrame [1])).2.2
      (by simp [step, onaudioprocess, frameLoud_one, initState])

/-- C5: the code contradicts the claim\x27s clearing half.  With the thinking
flag set, processing a message carrying an output transcript delta — and
likewise one carrying a tool call — leaves the flag STILL SET, because the
guard `if (isModelThinking) setIsModelThinking(false)` (useGeminiLive.ts:410
and 419) reads the `isModelThinking` value captured by the `onmessage`
closure when `connect()` ran, which is always false; the clear it plainly
intends never executes.  Only turn completion (or teardown) clears the flag,
as the third conjunct shows at the same state. -/
theorem output_delta_and_tool_call_leave_thinking_set :
    (onmessage false "voice" 0 0 { outputTranscription := some "hi" }
      stateThinking).state.isModelThinking = true ∧
    (onmessage false "voice" 0 0 { toolCall := some [⟨"w2", "getWeather", {}⟩] }
      stateThinking).state.isModelThinking = true ∧
    (onmessage false "voice" 0 0 { turnComplete := true }
      stateThinking).state.isModelThinking = false := by decide

theorem interrupted_clears_playback_witness :
    (onmessage false "voice" 0 0 { interrupted := true } stateWithSources).state.audioSources
        = [] ∧
    (onmessage false "voice" 0 0 { interrupted := true } stateWithSources).state.nextStartTime
        = 0 ∧
    stateWithSources.audioSources ⊆
      (onmessage false "voice" 0 0 { interrupted := true } stateWithSources).state.stoppedSources :=
  interrupted_clears_playback stateWithSources false "voice" 0 0
    { interrupted := true } rfl

end AuraAI
